import Mathlib

/-!
Verification of the database catalog comparison tools
(`compare-databases.py`, the unfiltered comparator, and
`compare-databases-filtered.py`, the comparator with the exclusion policy).

The Python scripts read two catalogs over SQL connections, compute
per-category set differences, optionally reconcile per-table row counts,
and fold everything into a pass/fail verdict printed as ordered findings.
The embedding below replaces the SQL reads by a `Catalog` value holding
exactly the rows the queries would return (the object lists in query
order and a row-count oracle standing for `SELECT COUNT(*)`, with `none`
for a failed count query), and models the pure comparison pipeline on
top of it.  A result of `none` from the filtered comparison stands for
the uncaught `TypeError` that `sum(source_counts.values())` raises when a
`None` count reaches it on the all-clear path.
-/

namespace DbCompare

/-- `(schemaName, objectName)`, the identity of a table, view, procedure or
function as returned by the metadata queries. -/
abbrev Ident := String × String

/-- `(SchemaName, TableName, IndexName)`, the comparable key of an index
(`compare-databases.py` projects the fetched 6-tuples onto these). -/
abbrev IdxKey := String × String × String

/-- `(TABLE_SCHEMA, TABLE_NAME, CONSTRAINT_NAME, CONSTRAINT_TYPE)`, the key
of a constraint. -/
abbrev ConsKey := String × String × String × String

/-- A row of `get_indexes`: `(SchemaName, TableName, IndexName, IndexType,
is_unique, is_primary_key)`. -/
abbrev IdxRow := String × String × String × String × Bool × Bool

/-- One entry of the dictionary `get_table_row_counts` builds:
identity paired with `count` (`none` = the count query failed). -/
abbrev RowEntry := Ident × Option Int

/-- One recorded row-count mismatch: `(table_key, source_count, target_count)`. -/
abbrev RowDiff := Ident × Option Int × Option Int

/-- One side's catalog as the metadata queries would materialize it: the
object lists in query order, and the row-count oracle standing for the
per-table `SELECT COUNT(*)` (`none` when that query raises). -/
structure Catalog where
  tables : List Ident
  views : List Ident
  procedures : List Ident
  functions : List Ident
  indexes : List IdxRow
  constraints : List ConsKey
  rowCount : Ident → Option Int

/-- `EXCLUDED_TABLES` of `compare-databases-filtered.py`. -/
def EXCLUDED_TABLES : List String := ["sysdiagrams"]

/-- `EXCLUDED_PROCEDURES` of `compare-databases-filtered.py`. -/
def EXCLUDED_PROCEDURES : List String :=
  ["sp_alterdiagram", "sp_creatediagram", "sp_dropdiagram",
   "sp_helpdiagramdefinition", "sp_helpdiagrams", "sp_renamediagram",
   "sp_upgraddiagrams"]

/-- `EXCLUDED_FUNCTIONS` of `compare-databases-filtered.py`. -/
def EXCLUDED_FUNCTIONS : List String := ["fn_diagramobjects"]

/-- Filtered `get_tables`: keeps a fetched row unless its object name is in
`EXCLUDED_TABLES` (name only, schema ignored, case-sensitive). -/
def filteredTables (c : Catalog) : List Ident :=
  c.tables.filter fun t => decide (t.2 ∉ EXCLUDED_TABLES)

/-- Filtered `get_procedures`: drops names in `EXCLUDED_PROCEDURES`. -/
def filteredProcedures (c : Catalog) : List Ident :=
  c.procedures.filter fun p => decide (p.2 ∉ EXCLUDED_PROCEDURES)

/-- Filtered `get_functions`: drops names in `EXCLUDED_FUNCTIONS`. -/
def filteredFunctions (c : Catalog) : List Ident :=
  c.functions.filter fun f => decide (f.2 ∉ EXCLUDED_FUNCTIONS)

/-- `compare_lists` one direction: `set(a) - set(b)` (membership and
emptiness agree with the Python set difference). -/
def setDiff {α : Type} [DecidableEq α] (a b : List α) : List α :=
  (a.filter fun x => decide (x ∉ b)).dedup

/-- `get_table_row_counts`: one count per discovered table; an individual
failure is the entry `none`, the loop never aborts. -/
def getTableRowCounts (oracle : Ident → Option Int) (ts : List Ident) :
    List RowEntry :=
  ts.map fun t => (t, oracle t)

/-- `counts.get(table_key)` on the dictionary built by
`get_table_row_counts`: an absent key and a failed count both read as
`none`, exactly as Python's `dict.get` returns `None` for both. -/
def lookupCount (cs : List RowEntry) (k : Ident) : Option Int :=
  match cs with
  | [] => none
  | (k2, v) :: rest => if k = k2 then v else lookupCount rest k

/-- The `row_count_diffs` loop: iterate the source's table keys in their
list order and record every unequal pair of counts with both counts. -/
def rowCountDiffs (keys : List Ident) (sC tC : List RowEntry) : List RowDiff :=
  keys.filterMap fun k =>
    if lookupCount sC k = lookupCount tC k then none
    else some (k, lookupCount sC k, lookupCount tC k)

/-- Tables `missing_in_target` of the filtered comparison. -/
def missingTablesF (src tgt : Catalog) : List Ident :=
  setDiff (filteredTables src) (filteredTables tgt)

/-- Tables `extra_in_target` of the filtered comparison. -/
def extraTablesF (src tgt : Catalog) : List Ident :=
  setDiff (filteredTables tgt) (filteredTables src)

/-- Views `missing_in_target` (views are not filtered in either mode). -/
def missingViews (src tgt : Catalog) : List Ident :=
  setDiff src.views tgt.views

/-- Views `extra_in_target`. -/
def extraViews (src tgt : Catalog) : List Ident :=
  setDiff tgt.views src.views

/-- Procedures `missing_in_target` of the filtered comparison. -/
def missingProcsF (src tgt : Catalog) : List Ident :=
  setDiff (filteredProcedures src) (filteredProcedures tgt)

/-- Procedures `extra_in_target` of the filtered comparison. -/
def extraProcsF (src tgt : Catalog) : List Ident :=
  setDiff (filteredProcedures tgt) (filteredProcedures src)

/-- Functions `missing_in_target` of the filtered comparison. -/
def missingFuncsF (src tgt : Catalog) : List Ident :=
  setDiff (filteredFunctions src) (filteredFunctions tgt)

/-- Functions `extra_in_target` of the filtered comparison. -/
def extraFuncsF (src tgt : Catalog) : List Ident :=
  setDiff (filteredFunctions tgt) (filteredFunctions src)

/-- `source_counts` of the filtered comparison. -/
def sourceCountsF (src : Catalog) : List RowEntry :=
  getTableRowCounts src.rowCount (filteredTables src)

/-- `target_counts` of the filtered comparison. -/
def targetCountsF (tgt : Catalog) : List RowEntry :=
  getTableRowCounts tgt.rowCount (filteredTables tgt)

/-- The guard `not missing_tables and not extra_tables` that decides whether
the row-count section runs. -/
def tablesMatchF (src tgt : Catalog) : Bool :=
  (missingTablesF src tgt).isEmpty && (extraTablesF src tgt).isEmpty

/-- `row_count_diffs` as the comparison run leaves it: computed only when
the table sets match, otherwise the section is skipped and no mismatch
exists. -/
def rowMismatchesF (src tgt : Catalog) : List RowDiff :=
  if tablesMatchF src tgt then
    rowCountDiffs (filteredTables src) (sourceCountsF src) (targetCountsF tgt)
  else []

/-- The `sum(source_counts.values())` on the all-counts-match path raises
`TypeError` exactly when some source count is `None`; this is that
condition. -/
def sumCrashF (src tgt : Catalog) : Bool :=
  tablesMatchF src tgt && (rowMismatchesF src tgt).isEmpty &&
    (sourceCountsF src).any fun p => p.2.isNone

/-- `differences_found` at the end of the filtered run. -/
def anyDiffF (src tgt : Catalog) : Bool :=
  !(missingTablesF src tgt).isEmpty || !(extraTablesF src tgt).isEmpty ||
  !(rowMismatchesF src tgt).isEmpty ||
  !(missingViews src tgt).isEmpty || !(extraViews src tgt).isEmpty ||
  !(missingProcsF src tgt).isEmpty || !(extraProcsF src tgt).isEmpty ||
  !(missingFuncsF src tgt).isEmpty || !(extraFuncsF src tgt).isEmpty

/-- The filtered `compare_databases` once both connections are open:
`some true` = the final `return True` (pass), `some false` = `return False`
(differences found), `none` = the uncaught `TypeError` from
`sum(source_counts.values())` (the run dies with a traceback, no verdict). -/
def compareFiltered (src tgt : Catalog) : Option Bool :=
  if sumCrashF src tgt then none else some (!anyDiffF src tgt)

/-- Unfiltered tables `missing_in_target`. -/
def missingTablesU (src tgt : Catalog) : List Ident :=
  setDiff src.tables tgt.tables

/-- Unfiltered tables `extra_in_target`. -/
def extraTablesU (src tgt : Catalog) : List Ident :=
  setDiff tgt.tables src.tables

/-- Unfiltered procedures `missing_in_target`. -/
def missingProcsU (src tgt : Catalog) : List Ident :=
  setDiff src.procedures tgt.procedures

/-- Unfiltered procedures `extra_in_target`. -/
def extraProcsU (src tgt : Catalog) : List Ident :=
  setDiff tgt.procedures src.procedures

/-- Unfiltered functions `missing_in_target`. -/
def missingFuncsU (src tgt : Catalog) : List Ident :=
  setDiff src.functions tgt.functions

/-- Unfiltered functions `extra_in_target`. -/
def extraFuncsU (src tgt : Catalog) : List Ident :=
  setDiff tgt.functions src.functions

/-- The comparable index keys `(schema, table, index_name)` projected from
the fetched index rows. -/
def idxKeys (c : Catalog) : List IdxKey :=
  c.indexes.map fun r => (r.1, r.2.1, r.2.2.1)

/-- Indexes `missing_in_target`. -/
def missingIndexesU (src tgt : Catalog) : List IdxKey :=
  setDiff (idxKeys src) (idxKeys tgt)

/-- Indexes `extra_in_target`. -/
def extraIndexesU (src tgt : Catalog) : List IdxKey :=
  setDiff (idxKeys tgt) (idxKeys src)

/-- Constraints `missing_in_target`. -/
def missingConsU (src tgt : Catalog) : List ConsKey :=
  setDiff src.constraints tgt.constraints

/-- Constraints `extra_in_target`. -/
def extraConsU (src tgt : Catalog) : List ConsKey :=
  setDiff tgt.constraints src.constraints

/-- `differences_found` at the end of the unfiltered run. -/
def anyDiffU (src tgt : Catalog) : Bool :=
  !(missingTablesU src tgt).isEmpty || !(extraTablesU src tgt).isEmpty ||
  !(missingViews src tgt).isEmpty || !(extraViews src tgt).isEmpty ||
  !(missingProcsU src tgt).isEmpty || !(extraProcsU src tgt).isEmpty ||
  !(missingFuncsU src tgt).isEmpty || !(extraFuncsU src tgt).isEmpty ||
  !(missingIndexesU src tgt).isEmpty || !(extraIndexesU src tgt).isEmpty ||
  !(missingConsU src tgt).isEmpty || !(extraConsU src tgt).isEmpty

/-- The unfiltered `compare_databases` once both connections are open:
it compares no row counts and cannot raise on the comparison path. -/
def compareUnfiltered (src tgt : Catalog) : Bool :=
  !anyDiffU src tgt

/-- The whole filtered `compare_databases` including the connection phase:
`none`-typed arguments stand for `create_connection` returning `None`
(the function prints an error and `return False` before any catalog is
read). -/
def runComparisonFiltered : Option Catalog → Option Catalog → Option Bool
  | none, _ => some false
  | some _, none => some false
  | some src, some tgt => compareFiltered src tgt

/-- The whole unfiltered `compare_databases` including the connection
phase. -/
def runComparisonUnfiltered : Option Catalog → Option Catalog → Option Bool
  | none, _ => some false
  | some _, none => some false
  | some src, some tgt => some (compareUnfiltered src tgt)

/-- `sys.exit(0 if success else 1)` in `main`; an uncaught exception also
exits the interpreter with code 1. -/
def exitCode : Option Bool → Nat
  | some true => 0
  | _ => 1

/-- Python's string comparison on the underlying character lists:
lexicographic by code point. -/
def charsLe : List Char → List Char → Bool
  | [], _ => true
  | _ :: _, [] => false
  | a :: as, b :: bs =>
    if a.toNat = b.toNat then charsLe as bs
    else decide (a.toNat < b.toNat)

/-- Python's `<=` on strings, as `sorted` compares tuple components. -/
def strLe (s t : String) : Bool := charsLe s.data t.data

/-- Python's `<=` on same-shape tuples of strings (the identity tuples the
scripts sort): lexicographic with string components. -/
def keyLe : List String → List String → Bool
  | [], _ => true
  | _ :: _, [] => false
  | a :: as, b :: bs => if a = b then keyLe as bs else strLe a b

/-- `keyLe` as a relation, for `List.insertionSort` and `List.Pairwise`. -/
def keyLE (a b : List String) : Prop := keyLe a b = true

instance : DecidableRel keyLE := fun a b =>
  inferInstanceAs (Decidable (keyLe a b = true))

/-- The key the unfiltered report orders a missing constraint by: the
`sorted(missing_constraints)` pass feeds a `by_type` grouping printed with
kinds sorted, so the emitted order is kind first, then schema, table,
name. -/
def consGroupKey : List String → List String
  | [s, t, n, ty] => [ty, s, t, n]
  | l => l

/-- Kind-first comparison used for the missing-constraints block. -/
def groupLE (a b : List String) : Prop := keyLE (consGroupKey a) (consGroupKey b)

instance : DecidableRel groupLE := fun a b =>
  inferInstanceAs (Decidable (keyLe (consGroupKey a) (consGroupKey b) = true))

/-- `sorted(...)` over a set of identity tuples. -/
def sortKeys (l : List (List String)) : List (List String) :=
  List.insertionSort keyLE l

/-- The missing-constraints emission order: sorted by kind, then by
(schema, table, name) within a kind. -/
def sortKeysByKind (l : List (List String)) : List (List String) :=
  List.insertionSort groupLE l

/-- The object categories the two scripts report on. -/
inductive Cat where
  | tbl | vw | proc | fn | idx | cstr | rcount
deriving DecidableEq

/-- One emitted finding: a missing object, an extra object, or a row-count
mismatch carrying both counts. -/
inductive Finding where
  | missingObj (c : Cat) (key : List String)
  | extraObj (c : Cat) (key : List String)
  | rowMismatch (key : List String) (srcCount tgtCount : Option Int)
deriving DecidableEq

/-- The category a finding belongs to. -/
def catOf : Finding → Cat
  | .missingObj c _ => c
  | .extraObj c _ => c
  | .rowMismatch _ _ _ => .rcount

/-- The identity key a finding displays. -/
def keyOf : Finding → List String
  | .missingObj _ k => k
  | .extraObj _ k => k
  | .rowMismatch k _ _ => k

/-- Whether a finding is a missing-in-target report. -/
def isMissingTag : Finding → Bool
  | .missingObj _ _ => true
  | _ => false

/-- Whether a finding is an extra-in-target report. -/
def isExtraTag : Finding → Bool
  | .extraObj _ _ => true
  | _ => false

/-- An `(schema, name)` identity as a sortable key. -/
def identKey (i : Ident) : List String := [i.1, i.2]

/-- An index key as a sortable key. -/
def idxKeyL (k : IdxKey) : List String := [k.1, k.2.1, k.2.2]

/-- A constraint key as a sortable key. -/
def consKeyL (k : ConsKey) : List String := [k.1, k.2.1, k.2.2.1, k.2.2.2]

/-- A `N object(s) missing in target` section: identities sorted, one
finding each. -/
def missingBlock (c : Cat) (keys : List (List String)) : List Finding :=
  (sortKeys keys).map (Finding.missingObj c)

/-- A `N extra object(s) in target` section: identities sorted. -/
def extraBlock (c : Cat) (keys : List (List String)) : List Finding :=
  (sortKeys keys).map (Finding.extraObj c)

/-- Step `[1/5]` of the filtered run: table findings. -/
def tableFindingsF (src tgt : Catalog) : List Finding :=
  missingBlock .tbl ((missingTablesF src tgt).map identKey) ++
  extraBlock .tbl ((extraTablesF src tgt).map identKey)

/-- Step `[2/5]` of the filtered run: row-count mismatch findings, in
source iteration order. -/
def rowFindingsF (src tgt : Catalog) : List Finding :=
  (rowMismatchesF src tgt).map fun d => Finding.rowMismatch (identKey d.1) d.2.1 d.2.2

/-- Steps `[3/5]`-`[5/5]` of the filtered run: views, procedures,
functions. -/
def lateFindingsF (src tgt : Catalog) : List Finding :=
  missingBlock .vw ((missingViews src tgt).map identKey) ++
  (extraBlock .vw ((extraViews src tgt).map identKey) ++
  (missingBlock .proc ((missingProcsF src tgt).map identKey) ++
  (extraBlock .proc ((extraProcsF src tgt).map identKey) ++
  (missingBlock .fn ((missingFuncsF src tgt).map identKey) ++
  extraBlock .fn ((extraFuncsF src tgt).map identKey)))))

/-- The ordered findings the filtered run emits.  The branch structure is
the script's: the row-count section runs only when the table sets match,
and when the all-counts-match path raises its `TypeError` the run dies
before any later section prints. -/
def findingsFiltered (src tgt : Catalog) : List Finding :=
  tableFindingsF src tgt ++
    (if tablesMatchF src tgt then
      (if sumCrashF src tgt then []
       else rowFindingsF src tgt ++ lateFindingsF src tgt)
     else lateFindingsF src tgt)

/-- The missing-constraints section of the unfiltered run, grouped by kind. -/
def consMissingBlockU (src tgt : Catalog) : List Finding :=
  (sortKeysByKind ((missingConsU src tgt).map consKeyL)).map
    (Finding.missingObj Cat.cstr)

/-- The ordered findings the unfiltered run emits: tables, views,
procedures, functions, indexes, constraints; no row counts. -/
def findingsUnfiltered (src tgt : Catalog) : List Finding :=
  missingBlock .tbl ((missingTablesU src tgt).map identKey) ++
  (extraBlock .tbl ((extraTablesU src tgt).map identKey) ++
  (missingBlock .vw ((missingViews src tgt).map identKey) ++
  (extraBlock .vw ((extraViews src tgt).map identKey) ++
  (missingBlock .proc ((missingProcsU src tgt).map identKey) ++
  (extraBlock .proc ((extraProcsU src tgt).map identKey) ++
  (missingBlock .fn ((missingFuncsU src tgt).map identKey) ++
  (extraBlock .fn ((extraFuncsU src tgt).map identKey) ++
  (missingBlock .idx ((missingIndexesU src tgt).map idxKeyL) ++
  (extraBlock .idx ((extraIndexesU src tgt).map idxKeyL) ++
  (consMissingBlockU src tgt ++
  extraBlock .cstr ((extraConsU src tgt).map consKeyL)))))))))))

/-- The findings of the whole filtered run including the connection phase:
a failed connection prints an error and returns before any section. -/
def runFindingsFiltered : Option Catalog → Option Catalog → List Finding
  | none, _ => []
  | some _, none => []
  | some src, some tgt => findingsFiltered src tgt

/-- The category rank the spec declares: tables, views, procedures,
functions, indexes, constraints, row counts. -/
def specCatRank : Cat → Nat
  | .tbl => 0
  | .vw => 1
  | .proc => 2
  | .fn => 3
  | .idx => 4
  | .cstr => 5
  | .rcount => 6

/-- The category order the filtered script actually emits: tables, row
counts, views, procedures, functions. -/
def filteredCatRank : Cat → Nat
  | .tbl => 0
  | .rcount => 1
  | .vw => 2
  | .proc => 3
  | .fn => 4
  | .idx => 5
  | .cstr => 6

/-- `List.Pairwise` as a boolean checker (for deciding concrete cases). -/
def pairwiseB {α : Type} (r : α → α → Bool) : List α → Bool
  | [] => true
  | x :: xs => xs.all (r x) && pairwiseB r xs

/-- All categories. -/
def catList : List Cat := [.tbl, .vw, .proc, .fn, .idx, .cstr, .rcount]

/-- The ordering the spec claims of a findings list: categories in the
declared order and, within each category, identities sorted
lexicographically by their key tuple. -/
def specOrderedB (l : List Finding) : Bool :=
  pairwiseB (fun a b => decide (specCatRank (catOf a) ≤ specCatRank (catOf b))) l &&
    catList.all fun c =>
      pairwiseB keyLe ((l.filter fun f => decide (catOf f = c)).map keyOf)

/-- Category ranks are nondecreasing along `l` (for a rank assignment `R`):
the list respects the category emission order `R` describes. -/
def RankMono (R : Cat → Nat) (l : List Finding) : Prop :=
  List.Pairwise (fun a b => R (catOf a) ≤ R (catOf b)) l

/-- Every finding of `l` has category rank at least `n`. -/
def RankLB (R : Cat → Nat) (n : Nat) (l : List Finding) : Prop :=
  ∀ f ∈ l, n ≤ R (catOf f)

/-! ### Concrete catalogs used as test inputs -/

/-- Both sides hold the single table `dbo.Users`; the source counts 100
rows where the target counts 99. -/
def cex2src : Catalog where
  tables := [("dbo", "Users")]
  views := []
  procedures := []
  functions := []
  indexes := []
  constraints := []
  rowCount := fun _ => some 100

/-- Target side of the row-count pair: same table, count 99. -/
def cex2tgt : Catalog where
  tables := [("dbo", "Users")]
  views := []
  procedures := []
  functions := []
  indexes := []
  constraints := []
  rowCount := fun _ => some 99

/-- A catalog whose single table's count query fails (count `none`). -/
def bug3cat : Catalog where
  tables := [("dbo", "Alpha")]
  views := []
  procedures := []
  functions := []
  indexes := []
  constraints := []
  rowCount := fun _ => none

/-- Scenario D source: one shared table plus the diagram procedure
`sp_creatediagram`. -/
def pol4src : Catalog where
  tables := [("dbo", "T")]
  views := []
  procedures := [("dbo", "sp_creatediagram")]
  functions := []
  indexes := []
  constraints := []
  rowCount := fun _ => some 5

/-- Scenario D target: the shared table only, no diagram procedure. -/
def pol4tgt : Catalog where
  tables := [("dbo", "T")]
  views := []
  procedures := []
  functions := []
  indexes := []
  constraints := []
  rowCount := fun _ => some 5

/-- Scenario E source: the count query for `dbo.Users` fails. -/
def scnEsrc : Catalog where
  tables := [("dbo", "Users")]
  views := []
  procedures := []
  functions := []
  indexes := []
  constraints := []
  rowCount := fun _ => none

/-- Scenario E target: `dbo.Users` counts zero rows. -/
def scnEtgt : Catalog where
  tables := [("dbo", "Users")]
  views := []
  procedures := []
  functions := []
  indexes := []
  constraints := []
  rowCount := fun _ => some 0

/-- A source catalog with a table the target lacks (a structural Fail). -/
def failA : Catalog where
  tables := [("dbo", "OnlyInSource")]
  views := []
  procedures := []
  functions := []
  indexes := []
  constraints := []
  rowCount := fun _ => some 0

/-- An empty catalog. -/
def failB : Catalog where
  tables := []
  views := []
  procedures := []
  functions := []
  indexes := []
  constraints := []
  rowCount := fun _ => some 0

/-- Ordering test, filtered mode, source: shared table counting 1 row and
a view `dbo.zz` the target lacks. -/
def ord7src : Catalog where
  tables := [("dbo", "T")]
  views := [("dbo", "zz")]
  procedures := []
  functions := []
  indexes := []
  constraints := []
  rowCount := fun _ => some 1

/-- Ordering test, filtered mode, target: same table counting 2 rows and
an extra view `dbo.aa`. -/
def ord7tgt : Catalog where
  tables := [("dbo", "T")]
  views := [("dbo", "aa")]
  procedures := []
  functions := []
  indexes := []
  constraints := []
  rowCount := fun _ => some 2

/-- Ordering test, unfiltered mode, source: two constraints of different
kinds whose name order and kind order disagree. -/
def ord7usrc : Catalog where
  tables := []
  views := []
  procedures := []
  functions := []
  indexes := []
  constraints := [("dbo", "T", "ZZZ", "CHECK"), ("dbo", "T", "AAA", "PRIMARY KEY")]
  rowCount := fun _ => none

/-- Ordering test, unfiltered mode, target: no constraints. -/
def ord7utgt : Catalog where
  tables := []
  views := []
  procedures := []
  functions := []
  indexes := []
  constraints := []
  rowCount := fun _ => none

/-- A count oracle that fails on `dbo.B` only. -/
def w8oracle : Ident → Option Int :=
  fun i => if i = ("dbo", "B") then none else some 7

/-- A second oracle agreeing with `w8oracle` away from `dbo.B`. -/
def w8oracle2 : Ident → Option Int :=
  fun i => if i = ("dbo", "B") then some 3 else some 7

/-- Two tables, of which `dbo.B` is the one whose count query fails. -/
def w8tables : List Ident := [("dbo", "A"), ("dbo", "B")]

/-- A catalog equal on both sides whose only table has a failed count. -/
def bug9cat : Catalog where
  tables := [("dbo", "Beta")]
  views := []
  procedures := []
  functions := []
  indexes := []
  constraints := []
  rowCount := fun _ => none

/-- Matching table sets with both-side `none` counts, plus a procedure the
target lacks. -/
def bug10src : Catalog where
  tables := [("dbo", "Gamma")]
  views := []
  procedures := [("dbo", "RealProc")]
  functions := []
  indexes := []
  constraints := []
  rowCount := fun _ => none

/-- The target for the both-`none` pair: same table, no procedures. -/
def bug10tgt : Catalog where
  tables := [("dbo", "Gamma")]
  views := []
  procedures := []
  functions := []
  indexes := []
  constraints := []
  rowCount := fun _ => none

/-! ### Order and list lemmas -/

theorem char_toNat_inj {a b : Char} (h : a.toNat = b.toNat) : a = b :=
  Char.eq_of_val_eq (UInt32.ext h)

theorem string_data_inj {s t : String} (h : s.data = t.data) : s = t :=
  String.ext h

theorem charsLe_total : ∀ as bs : List Char, charsLe as bs = true ∨ charsLe bs as = true := by
  intro as
  induction as with
  | nil => intro bs; left; rfl
  | cons a as ih =>
    intro bs
    cases bs with
    | nil => right; rfl
    | cons b bs =>
      by_cases h : a.toNat = b.toNat
      · rcases ih bs with h1 | h1
        · left; simp [charsLe, h, h1]
        · right; simp [charsLe, h.symm, h1]
      · rcases Nat.lt_or_ge a.toNat b.toNat with hlt | hge
        · left; simp [charsLe, h, hlt]
        · right
          have hlt : b.toNat < a.toNat := lt_of_le_of_ne hge (fun e => h e.symm)
          have h' : b.toNat ≠ a.toNat := Nat.ne_of_lt hlt
          simp [charsLe, h', hlt]

theorem charsLe_trans : ∀ as bs cs : List Char,
    charsLe as bs = true → charsLe bs cs = true → charsLe as cs = true := by
  intro as
  induction as with
  | nil => intro bs cs _ _; rfl
  | cons a as ih =>
    intro bs cs h1 h2
    cases bs with
    | nil => simp [charsLe] at h1
    | cons b bs =>
      cases cs with
      | nil => simp [charsLe] at h2
      | cons c cs =>
        by_cases hab : a.toNat = b.toNat <;> by_cases hbc : b.toNat = c.toNat
        · simp only [charsLe, if_pos hab] at h1
          simp only [charsLe, if_pos hbc] at h2
          simp only [charsLe, if_pos (hab.trans hbc)]
          exact ih bs cs h1 h2
        · simp only [charsLe, if_pos hab] at h1
          simp only [charsLe, if_neg hbc, decide_eq_true_eq] at h2
          have hac : a.toNat ≠ c.toNat := fun e => hbc (hab.symm.trans e)
          simp only [charsLe, if_neg hac, decide_eq_true_eq]
          omega
        · simp only [charsLe, if_neg hab, decide_eq_true_eq] at h1
          simp only [charsLe, if_pos hbc] at h2
          have hac : a.toNat ≠ c.toNat := fun e => hab (e.trans hbc.symm)
          simp only [charsLe, if_neg hac, decide_eq_true_eq]
          omega
        · simp only [charsLe, if_neg hab, decide_eq_true_eq] at h1
          simp only [charsLe, if_neg hbc, decide_eq_true_eq] at h2
          have hac : a.toNat < c.toNat := lt_trans h1 h2
          simp only [charsLe, if_neg (Nat.ne_of_lt hac), decide_eq_true_eq]
          exact hac

theorem charsLe_antisymm : ∀ as bs : List Char,
    charsLe as bs = true → charsLe bs as = true → as = bs := by
  intro as
  induction as with
  | nil =>
    intro bs _ h2
    cases bs with
    | nil => rfl
    | cons b bs => simp [charsLe] at h2
  | cons a as ih =>
    intro bs h1 h2
    cases bs with
    | nil => simp [charsLe] at h1
    | cons b bs =>
      by_cases h : a.toNat = b.toNat
      · simp only [charsLe, if_pos h] at h1
        simp only [charsLe, if_pos h.symm] at h2
        rw [char_toNat_inj h, ih bs h1 h2]
      · have h' : b.toNat ≠ a.toNat := fun e => h e.symm
        simp only [charsLe, if_neg h, decide_eq_true_eq] at h1
        simp only [charsLe, if_neg h', decide_eq_true_eq] at h2
        exact absurd h2 (Nat.not_lt.mpr (Nat.le_of_lt h1))

theorem strLe_total (s t : String) : strLe s t = true ∨ strLe t s = true :=
  charsLe_total s.data t.data

theorem strLe_trans {s t u : String} (h1 : strLe s t = true) (h2 : strLe t u = true) :
    strLe s u = true :=
  charsLe_trans s.data t.data u.data h1 h2

theorem strLe_antisymm {s t : String} (h1 : strLe s t = true) (h2 : strLe t s = true) :
    s = t :=
  string_data_inj (charsLe_antisymm s.data t.data h1 h2)

theorem keyLe_total : ∀ a b : List String, keyLe a b = true ∨ keyLe b a = true := by
  intro a
  induction a with
  | nil => intro b; left; rfl
  | cons x xs ih =>
    intro b
    cases b with
    | nil => right; rfl
    | cons y ys =>
      by_cases h : x = y
      · rcases ih ys with h1 | h1
        · left; simp [keyLe, h, h1]
        · right; simp [keyLe, h.symm, h1]
      · have h' : y ≠ x := fun e => h e.symm
        rcases strLe_total x y with h1 | h1
        · left; simp [keyLe, h, h1]
        · right; simp [keyLe, h', h1]

theorem keyLe_trans : ∀ a b c : List String,
    keyLe a b = true → keyLe b c = true → keyLe a c = true := by
  intro a
  induction a with
  | nil => intro b c _ _; rfl
  | cons x xs ih =>
    intro b c h1 h2
    cases b with
    | nil => simp [keyLe] at h1
    | cons y ys =>
      cases c with
      | nil => simp [keyLe] at h2
      | cons z zs =>
        by_cases hxy : x = y <;> by_cases hyz : y = z
        · subst hxy; subst hyz
          simp [keyLe] at h1 h2 ⊢
          exact ih ys zs h1 h2
        · subst hxy
          simp [keyLe, hyz] at h1 h2 ⊢
          exact h2
        · subst hyz
          simp [keyLe, hxy] at h1 h2 ⊢
          exact h1
        · simp [keyLe, hxy, hyz] at h1 h2 ⊢
          have hxz : x ≠ z := by
            intro e
            subst e
            exact hxy (strLe_antisymm h1 h2)
          simp [keyLe, hxz]
          exact strLe_trans h1 h2

theorem keyLE_total (a b : List String) : keyLE a b ∨ keyLE b a :=
  keyLe_total a b

theorem keyLE_trans {a b c : List String} (h1 : keyLE a b) (h2 : keyLE b c) : keyLE a c :=
  keyLe_trans a b c h1 h2

theorem groupLE_total (a b : List String) : groupLE a b ∨ groupLE b a :=
  keyLe_total (consGroupKey a) (consGroupKey b)

theorem groupLE_trans {a b c : List String} (h1 : groupLE a b) (h2 : groupLE b c) :
    groupLE a c :=
  keyLe_trans (consGroupKey a) (consGroupKey b) (consGroupKey c) h1 h2

theorem pairwise_sortKeys (l : List (List String)) : List.Pairwise keyLE (sortKeys l) := by
  haveI : IsTotal (List String) keyLE := ⟨keyLE_total⟩
  haveI : IsTrans (List String) keyLE := ⟨fun _ _ _ => keyLE_trans⟩
  exact List.sorted_insertionSort keyLE l

theorem pairwise_sortKeysByKind (l : List (List String)) :
    List.Pairwise groupLE (sortKeysByKind l) := by
  haveI : IsTotal (List String) groupLE := ⟨groupLE_total⟩
  haveI : IsTrans (List String) groupLE := ⟨fun _ _ _ => groupLE_trans⟩
  exact List.sorted_insertionSort groupLE l

theorem mem_sortKeys {x : List String} {l : List (List String)} :
    x ∈ sortKeys l ↔ x ∈ l :=
  List.mem_insertionSort keyLE

theorem mem_sortKeysByKind {x : List String} {l : List (List String)} :
    x ∈ sortKeysByKind l ↔ x ∈ l :=
  List.mem_insertionSort groupLE

theorem mem_setDiff {α : Type} [DecidableEq α] {x : α} {a b : List α} :
    x ∈ setDiff a b ↔ x ∈ a ∧ x ∉ b := by
  simp [setDiff, List.mem_dedup, List.mem_filter]

theorem setDiff_eq_nil_iff {α : Type} [DecidableEq α] {a b : List α} :
    setDiff a b = [] ↔ ∀ x ∈ a, x ∈ b := by
  rw [List.eq_nil_iff_forall_not_mem]
  constructor
  · intro h x hx
    by_contra hb
    exact h x (mem_setDiff.mpr ⟨hx, hb⟩)
  · intro h x hx
    rcases mem_setDiff.mp hx with ⟨hxa, hxb⟩
    exact hxb (h x hxa)

theorem setDiff_self {α : Type} [DecidableEq α] (a : List α) : setDiff a a = [] :=
  setDiff_eq_nil_iff.mpr fun _ hx => hx

theorem lookupCount_getTableRowCounts (oracle : Ident → Option Int) :
    ∀ (ts : List Ident) (u : Ident), u ∈ ts →
      lookupCount (getTableRowCounts oracle ts) u = oracle u := by
  intro ts
  induction ts with
  | nil => intro u hu; cases hu
  | cons t ts ih =>
    intro u hu
    by_cases h : u = t
    · subst h; simp [getTableRowCounts, lookupCount]
    · rcases List.mem_cons.mp hu with h' | h'
      · exact absurd h' h
      · simpa [getTableRowCounts, lookupCount, h] using ih u h'

theorem mem_rowCountDiffs {keys : List Ident} {sC tC : List RowEntry}
    {k : Ident} {s t : Option Int} :
    (k, s, t) ∈ rowCountDiffs keys sC tC ↔
      k ∈ keys ∧ s = lookupCount sC k ∧ t = lookupCount tC k ∧ s ≠ t := by
  constructor
  · intro h
    rcases List.mem_filterMap.mp h with ⟨k', hk', he⟩
    by_cases hc : lookupCount sC k' = lookupCount tC k'
    · simp [hc] at he
    · simp [hc] at he
      obtain ⟨rfl, rfl, rfl⟩ := he
      exact ⟨hk', rfl, rfl, hc⟩
  · rintro ⟨hk, rfl, rfl, hne⟩
    exact List.mem_filterMap.mpr ⟨k, hk, by simp [hne]⟩

theorem rowCountDiffs_eq_nil_iff {keys : List Ident} {sC tC : List RowEntry} :
    rowCountDiffs keys sC tC = [] ↔
      ∀ k ∈ keys, lookupCount sC k = lookupCount tC k := by
  constructor
  · intro h k hk
    by_contra hne
    have : (k, lookupCount sC k, lookupCount tC k) ∈ rowCountDiffs keys sC tC :=
      mem_rowCountDiffs.mpr ⟨hk, rfl, rfl, hne⟩
    simp [h] at this
  · intro h
    rw [List.eq_nil_iff_forall_not_mem]
    rintro ⟨k, s, t⟩ hm
    rcases mem_rowCountDiffs.mp hm with ⟨hk, rfl, rfl, hne⟩
    exact hne (h k hk)

theorem rowCountDiffs_fst_sublist (keys : List Ident) (sC tC : List RowEntry) :
    List.Sublist ((rowCountDiffs keys sC tC).map fun d => d.1) keys := by
  induction keys with
  | nil => simp [rowCountDiffs]
  | cons k ks ih =>
    rw [rowCountDiffs, List.filterMap_cons]
    by_cases hc : lookupCount sC k = lookupCount tC k
    · simp only [if_pos hc]
      exact (ih.trans (List.sublist_cons_self k ks))
    · simp only [if_neg hc, List.map_cons]
      exact List.Sublist.cons₂ k ih

theorem pairwiseB_iff {α : Type} {r : α → α → Bool} {l : List α} :
    pairwiseB r l = true ↔ List.Pairwise (fun a b => r a b = true) l := by
  induction l with
  | nil => simp [pairwiseB]
  | cons x xs ih =>
    simp [pairwiseB, List.pairwise_cons, ih, List.all_eq_true, and_comm]

/-! ### Findings structure lemmas -/

theorem catOf_of_mem_missingBlock {f : Finding} {c : Cat} {keys : List (List String)}
    (h : f ∈ missingBlock c keys) : catOf f = c := by
  obtain ⟨k, -, rfl⟩ := List.mem_map.mp h; rfl

theorem catOf_of_mem_extraBlock {f : Finding} {c : Cat} {keys : List (List String)}
    (h : f ∈ extraBlock c keys) : catOf f = c := by
  obtain ⟨k, -, rfl⟩ := List.mem_map.mp h; rfl

theorem catOf_of_mem_rowFindingsF {f : Finding} {src tgt : Catalog}
    (h : f ∈ rowFindingsF src tgt) : catOf f = Cat.rcount := by
  obtain ⟨d, -, rfl⟩ := List.mem_map.mp h; rfl

theorem catOf_of_mem_consMissingBlockU {f : Finding} {src tgt : Catalog}
    (h : f ∈ consMissingBlockU src tgt) : catOf f = Cat.cstr := by
  obtain ⟨k, -, rfl⟩ := List.mem_map.mp h; rfl

theorem pairwise_mono_of_const {g : Finding → Nat} {n : Nat} :
    ∀ {l : List Finding}, (∀ x ∈ l, g x = n) →
      List.Pairwise (fun a b => g a ≤ g b) l := by
  intro l
  induction l with
  | nil => intro _; exact List.Pairwise.nil
  | cons x xs ih =>
    intro h
    refine List.Pairwise.cons (fun y hy => ?_)
      (ih fun y hy => h y (List.mem_cons_of_mem _ hy))
    rw [h x (List.mem_cons_self _ _), h y (List.mem_cons_of_mem _ hy)]

theorem rankMono_nil {R : Cat → Nat} : RankMono R [] := List.Pairwise.nil

theorem rankMono_missingBlock {R : Cat → Nat} {c : Cat} {keys : List (List String)} :
    RankMono R (missingBlock c keys) :=
  pairwise_mono_of_const (n := R c) fun _ hx => by rw [catOf_of_mem_missingBlock hx]

theorem rankMono_extraBlock {R : Cat → Nat} {c : Cat} {keys : List (List String)} :
    RankMono R (extraBlock c keys) :=
  pairwise_mono_of_const (n := R c) fun _ hx => by rw [catOf_of_mem_extraBlock hx]

theorem rankMono_rowFindingsF {R : Cat → Nat} {src tgt : Catalog} :
    RankMono R (rowFindingsF src tgt) :=
  pairwise_mono_of_const (n := R Cat.rcount) fun _ hx => by
    rw [catOf_of_mem_rowFindingsF hx]

theorem rankMono_consMissingBlockU {R : Cat → Nat} {src tgt : Catalog} :
    RankMono R (consMissingBlockU src tgt) :=
  pairwise_mono_of_const (n := R Cat.cstr) fun _ hx => by
    rw [catOf_of_mem_consMissingBlockU hx]

theorem rankLB_append {R : Cat → Nat} {n : Nat} {l₁ l₂ : List Finding}
    (h₁ : RankLB R n l₁) (h₂ : RankLB R n l₂) : RankLB R n (l₁ ++ l₂) := by
  intro f hf
  rcases List.mem_append.mp hf with h | h
  · exact h₁ f h
  · exact h₂ f h

theorem rankLB_weaken {R : Cat → Nat} {m n : Nat} {l : List Finding}
    (h : RankLB R m l) (hnm : n ≤ m) : RankLB R n l :=
  fun f hf => le_trans hnm (h f hf)

theorem rankLB_nil {R : Cat → Nat} {n : Nat} : RankLB R n [] := by
  intro f hf; cases hf

theorem rankLB_missingBlock {R : Cat → Nat} {n : Nat} {c : Cat}
    {keys : List (List String)} (h : n ≤ R c) : RankLB R n (missingBlock c keys) :=
  fun _ hf => by rw [catOf_of_mem_missingBlock hf]; exact h

theorem rankLB_extraBlock {R : Cat → Nat} {n : Nat} {c : Cat}
    {keys : List (List String)} (h : n ≤ R c) : RankLB R n (extraBlock c keys) :=
  fun _ hf => by rw [catOf_of_mem_extraBlock hf]; exact h

theorem rankLB_rowFindingsF {R : Cat → Nat} {n : Nat} {src tgt : Catalog}
    (h : n ≤ R Cat.rcount) : RankLB R n (rowFindingsF src tgt) :=
  fun _ hf => by rw [catOf_of_mem_rowFindingsF hf]; exact h

theorem rankLB_consMissingBlockU {R : Cat → Nat} {n : Nat} {src tgt : Catalog}
    (h : n ≤ R Cat.cstr) : RankLB R n (consMissingBlockU src tgt) :=
  fun _ hf => by rw [catOf_of_mem_consMissingBlockU hf]; exact h

theorem rankMono_append_block {R : Cat → Nat} {l₁ l₂ : List Finding} {n : Nat}
    (h₁ : RankMono R l₁) (hub : ∀ f ∈ l₁, R (catOf f) = n)
    (h₂ : RankMono R l₂) (hlb : RankLB R n l₂) : RankMono R (l₁ ++ l₂) :=
  List.pairwise_append.mpr ⟨h₁, h₂, fun a ha b hb => (hub a ha).symm ▸ hlb b hb⟩

theorem rank_eq_missingBlock {R : Cat → Nat} {c : Cat} {keys : List (List String)} :
    ∀ f ∈ missingBlock c keys, R (catOf f) = R c :=
  fun _ hf => by rw [catOf_of_mem_missingBlock hf]

theorem rank_eq_extraBlock {R : Cat → Nat} {c : Cat} {keys : List (List String)} :
    ∀ f ∈ extraBlock c keys, R (catOf f) = R c :=
  fun _ hf => by rw [catOf_of_mem_extraBlock hf]

theorem rank_eq_rowFindingsF {R : Cat → Nat} {src tgt : Catalog} :
    ∀ f ∈ rowFindingsF src tgt, R (catOf f) = R Cat.rcount :=
  fun _ hf => by rw [catOf_of_mem_rowFindingsF hf]

/-- The late (views, procedures, functions) sections are monotone in the
filtered emission order and sit at rank 2 or above. -/
theorem lateFindingsF_rankMono (src tgt : Catalog) :
    RankMono filteredCatRank (lateFindingsF src tgt) := by
  unfold lateFindingsF
  refine rankMono_append_block rankMono_missingBlock rank_eq_missingBlock ?_ ?_
  · refine rankMono_append_block rankMono_extraBlock rank_eq_extraBlock ?_ ?_
    · refine rankMono_append_block rankMono_missingBlock rank_eq_missingBlock ?_ ?_
      · refine rankMono_append_block rankMono_extraBlock rank_eq_extraBlock ?_ ?_
        · exact rankMono_append_block rankMono_missingBlock rank_eq_missingBlock
            rankMono_extraBlock (rankLB_extraBlock (by decide))
        · exact rankLB_append (rankLB_missingBlock (by decide))
            (rankLB_extraBlock (by decide))
      · exact rankLB_append (rankLB_extraBlock (by decide))
          (rankLB_append (rankLB_missingBlock (by decide))
            (rankLB_extraBlock (by decide)))
    · exact rankLB_append (rankLB_missingBlock (by decide))
        (rankLB_append (rankLB_extraBlock (by decide))
          (rankLB_append (rankLB_missingBlock (by decide))
            (rankLB_extraBlock (by decide))))
  · exact rankLB_append (rankLB_extraBlock (by decide))
      (rankLB_append (rankLB_missingBlock (by decide))
        (rankLB_append (rankLB_extraBlock (by decide))
          (rankLB_append (rankLB_missingBlock (by decide))
            (rankLB_extraBlock (by decide)))))

theorem lateFindingsF_rankLB (src tgt : Catalog) :
    RankLB filteredCatRank 2 (lateFindingsF src tgt) := by
  unfold lateFindingsF
  exact rankLB_append (rankLB_missingBlock (by decide))
    (rankLB_append (rankLB_extraBlock (by decide))
      (rankLB_append (rankLB_missingBlock (by decide))
        (rankLB_append (rankLB_extraBlock (by decide))
          (rankLB_append (rankLB_missingBlock (by decide))
            (rankLB_extraBlock (by decide))))))

/-- The filtered run's findings respect its emission order: tables, row
counts, views, procedures, functions. -/
theorem findingsFiltered_rankMono (src tgt : Catalog) :
    RankMono filteredCatRank (findingsFiltered src tgt) := by
  unfold findingsFiltered tableFindingsF
  rw [List.append_assoc]
  refine rankMono_append_block rankMono_missingBlock rank_eq_missingBlock ?_ ?_
  · refine rankMono_append_block rankMono_extraBlock rank_eq_extraBlock ?_ ?_
    · split
      · split
        · exact rankMono_nil
        · exact rankMono_append_block rankMono_rowFindingsF rank_eq_rowFindingsF
            (lateFindingsF_rankMono src tgt)
            (rankLB_weaken (lateFindingsF_rankLB src tgt) (by decide))
      · exact lateFindingsF_rankMono src tgt
    · split
      · split
        · exact rankLB_nil
        · exact rankLB_append (rankLB_rowFindingsF (by decide))
            (rankLB_weaken (lateFindingsF_rankLB src tgt) (by decide))
      · exact rankLB_weaken (lateFindingsF_rankLB src tgt) (by decide)
  · split
    · split
      · exact rankLB_append (rankLB_extraBlock (by decide)) rankLB_nil
      · exact rankLB_append (rankLB_extraBlock (by decide))
          (rankLB_append (rankLB_rowFindingsF (by decide))
            (rankLB_weaken (lateFindingsF_rankLB src tgt) (by decide)))
    · exact rankLB_append (rankLB_extraBlock (by decide))
        (rankLB_weaken (lateFindingsF_rankLB src tgt) (by decide))

/-- The unfiltered run's findings respect the declared category order:
tables, views, procedures, functions, indexes, constraints. -/
theorem findingsUnfiltered_rankMono (src tgt : Catalog) :
    RankMono specCatRank (findingsUnfiltered src tgt) := by
  unfold findingsUnfiltered
  refine rankMono_append_block rankMono_missingBlock rank_eq_missingBlock ?_ ?_
  · refine rankMono_append_block rankMono_extraBlock rank_eq_extraBlock ?_ ?_
    · refine rankMono_append_block rankMono_missingBlock rank_eq_missingBlock ?_ ?_
      · refine rankMono_append_block rankMono_extraBlock rank_eq_extraBlock ?_ ?_
        · refine rankMono_append_block rankMono_missingBlock rank_eq_missingBlock ?_ ?_
          · refine rankMono_append_block rankMono_extraBlock rank_eq_extraBlock ?_ ?_
            · refine rankMono_append_block rankMono_missingBlock rank_eq_missingBlock ?_ ?_
              · refine rankMono_append_block rankMono_extraBlock rank_eq_extraBlock ?_ ?_
                · refine rankMono_append_block rankMono_missingBlock rank_eq_missingBlock ?_ ?_
                  · refine rankMono_append_block rankMono_extraBlock rank_eq_extraBlock ?_ ?_
                    · exact rankMono_append_block rankMono_consMissingBlockU
                        (fun _ hf => by rw [catOf_of_mem_consMissingBlockU hf])
                        rankMono_extraBlock (rankLB_extraBlock (by decide))
                    · exact rankLB_append (rankLB_consMissingBlockU (by decide))
                        (rankLB_extraBlock (by decide))
                  · exact rankLB_append (rankLB_extraBlock (by decide))
                      (rankLB_append (rankLB_consMissingBlockU (by decide))
                        (rankLB_extraBlock (by decide)))
                · exact rankLB_append (rankLB_missingBlock (by decide))
                    (rankLB_append (rankLB_extraBlock (by decide))
                      (rankLB_append (rankLB_consMissingBlockU (by decide))
                        (rankLB_extraBlock (by decide))))
              · exact rankLB_append (rankLB_extraBlock (by decide))
                  (rankLB_append (rankLB_missingBlock (by decide))
                    (rankLB_append (rankLB_extraBlock (by decide))
                      (rankLB_append (rankLB_consMissingBlockU (by decide))
                        (rankLB_extraBlock (by decide)))))
            · exact rankLB_append (rankLB_missingBlock (by decide))
                (rankLB_append (rankLB_extraBlock (by decide))
                  (rankLB_append (rankLB_missingBlock (by decide))
                    (rankLB_append (rankLB_extraBlock (by decide))
                      (rankLB_append (rankLB_consMissingBlockU (by decide))
                        (rankLB_extraBlock (by decide))))))
          · exact rankLB_append (rankLB_extraBlock (by decide))
              (rankLB_append (rankLB_missingBlock (by decide))
                (rankLB_append (rankLB_extraBlock (by decide))
                  (rankLB_append (rankLB_missingBlock (by decide))
                    (rankLB_append (rankLB_extraBlock (by decide))
                      (rankLB_append (rankLB_consMissingBlockU (by decide))
                        (rankLB_extraBlock (by decide)))))))
        · exact rankLB_append (rankLB_missingBlock (by decide))
            (rankLB_append (rankLB_extraBlock (by decide))
              (rankLB_append (rankLB_missingBlock (by decide))
                (rankLB_append (rankLB_extraBlock (by decide))
                  (rankLB_append (rankLB_missingBlock (by decide))
                    (rankLB_append (rankLB_extraBlock (by decide))
                      (rankLB_append (rankLB_consMissingBlockU (by decide))
                        (rankLB_extraBlock (by decide))))))))
      · exact rankLB_append (rankLB_extraBlock (by decide))
          (rankLB_append (rankLB_missingBlock (by decide))
            (rankLB_append (rankLB_extraBlock (by decide))
              (rankLB_append (rankLB_missingBlock (by decide))
                (rankLB_append (rankLB_extraBlock (by decide))
                  (rankLB_append (rankLB_missingBlock (by decide))
                    (rankLB_append (rankLB_extraBlock (by decide))
                      (rankLB_append (rankLB_consMissingBlockU (by decide))
                        (rankLB_extraBlock (by decide)))))))))
    · exact rankLB_append (rankLB_missingBlock (by decide))
        (rankLB_append (rankLB_extraBlock (by decide))
          (rankLB_append (rankLB_missingBlock (by decide))
            (rankLB_append (rankLB_extraBlock (by decide))
              (rankLB_append (rankLB_missingBlock (by decide))
                (rankLB_append (rankLB_extraBlock (by decide))
                  (rankLB_append (rankLB_missingBlock (by decide))
                    (rankLB_append (rankLB_extraBlock (by decide))
                      (rankLB_append (rankLB_consMissingBlockU (by decide))
                        (rankLB_extraBlock (by decide))))))))))
  · exact rankLB_append (rankLB_extraBlock (by decide))
      (rankLB_append (rankLB_missingBlock (by decide))
        (rankLB_append (rankLB_extraBlock (by decide))
          (rankLB_append (rankLB_missingBlock (by decide))
            (rankLB_append (rankLB_extraBlock (by decide))
              (rankLB_append (rankLB_missingBlock (by decide))
                (rankLB_append (rankLB_extraBlock (by decide))
                  (rankLB_append (rankLB_missingBlock (by decide))
                    (rankLB_append (rankLB_extraBlock (by decide))
                      (rankLB_append (rankLB_consMissingBlockU (by decide))
                        (rankLB_extraBlock (by decide)))))))))))

/-- No finding of the unfiltered run is a row-count mismatch: that script
has no row-count section. -/
theorem catOf_of_mem_findingsUnfiltered {f : Finding} {src tgt : Catalog}
    (h : f ∈ findingsUnfiltered src tgt) : catOf f ≠ Cat.rcount := by
  unfold findingsUnfiltered at h
  simp only [List.mem_append] at h
  rcases h with h | h | h | h | h | h | h | h | h | h | h | h
  all_goals first
    | (rw [catOf_of_mem_missingBlock h]; decide)
    | (rw [catOf_of_mem_extraBlock h]; decide)
    | (rw [catOf_of_mem_consMissingBlockU h]; decide)

theorem filter_missing_missingBlock (c' c : Cat) (keys : List (List String)) :
    (missingBlock c' keys).filter (fun f => isMissingTag f && decide (catOf f = c)) =
      if c' = c then missingBlock c' keys else [] := by
  by_cases h : c' = c
  · subst h
    rw [if_pos rfl]
    apply List.filter_eq_self.mpr
    intro f hf
    obtain ⟨k, -, rfl⟩ := List.mem_map.mp hf
    simp [isMissingTag, catOf]
  · rw [if_neg h]
    apply List.filter_eq_nil_iff.mpr
    intro f hf
    obtain ⟨k, -, rfl⟩ := List.mem_map.mp hf
    simp [isMissingTag, catOf, h]

theorem filter_missing_extraBlock (c' c : Cat) (keys : List (List String)) :
    (extraBlock c' keys).filter (fun f => isMissingTag f && decide (catOf f = c)) = [] := by
  apply List.filter_eq_nil_iff.mpr
  intro f hf
  obtain ⟨k, -, rfl⟩ := List.mem_map.mp hf
  simp [isMissingTag]

theorem filter_missing_rowFindingsF (src tgt : Catalog) (c : Cat) :
    (rowFindingsF src tgt).filter (fun f => isMissingTag f && decide (catOf f = c)) = [] := by
  apply List.filter_eq_nil_iff.mpr
  intro f hf
  obtain ⟨d, -, rfl⟩ := List.mem_map.mp hf
  simp [isMissingTag]

theorem filter_missing_consMissingBlockU (src tgt : Catalog) (c : Cat) :
    (consMissingBlockU src tgt).filter (fun f => isMissingTag f && decide (catOf f = c)) =
      if Cat.cstr = c then consMissingBlockU src tgt else [] := by
  by_cases h : Cat.cstr = c
  · subst h
    rw [if_pos rfl]
    apply List.filter_eq_self.mpr
    intro f hf
    obtain ⟨k, -, rfl⟩ := List.mem_map.mp hf
    simp [isMissingTag, catOf]
  · rw [if_neg h]
    apply List.filter_eq_nil_iff.mpr
    intro f hf
    obtain ⟨k, -, rfl⟩ := List.mem_map.mp hf
    simp [isMissingTag, catOf, h]

theorem filter_extra_extraBlock (c' c : Cat) (keys : List (List String)) :
    (extraBlock c' keys).filter (fun f => isExtraTag f && decide (catOf f = c)) =
      if c' = c then extraBlock c' keys else [] := by
  by_cases h : c' = c
  · subst h
    rw [if_pos rfl]
    apply List.filter_eq_self.mpr
    intro f hf
    obtain ⟨k, -, rfl⟩ := List.mem_map.mp hf
    simp [isExtraTag, catOf]
  · rw [if_neg h]
    apply List.filter_eq_nil_iff.mpr
    intro f hf
    obtain ⟨k, -, rfl⟩ := List.mem_map.mp hf
    simp [isExtraTag, catOf, h]

theorem filter_extra_missingBlock (c' c : Cat) (keys : List (List String)) :
    (missingBlock c' keys).filter (fun f => isExtraTag f && decide (catOf f = c)) = [] := by
  apply List.filter_eq_nil_iff.mpr
  intro f hf
  obtain ⟨k, -, rfl⟩ := List.mem_map.mp hf
  simp [isExtraTag]

theorem filter_extra_rowFindingsF (src tgt : Catalog) (c : Cat) :
    (rowFindingsF src tgt).filter (fun f => isExtraTag f && decide (catOf f = c)) = [] := by
  apply List.filter_eq_nil_iff.mpr
  intro f hf
  obtain ⟨d, -, rfl⟩ := List.mem_map.mp hf
  simp [isExtraTag]

theorem filter_extra_consMissingBlockU (src tgt : Catalog) (c : Cat) :
    (consMissingBlockU src tgt).filter (fun f => isExtraTag f && decide (catOf f = c)) = [] := by
  apply List.filter_eq_nil_iff.mpr
  intro f hf
  obtain ⟨k, -, rfl⟩ := List.mem_map.mp hf
  simp [isExtraTag]

theorem keyOf_missingBlock (c : Cat) (keys : List (List String)) :
    (missingBlock c keys).map keyOf = sortKeys keys := by
  rw [missingBlock, List.map_map]
  exact List.map_id'' (fun _ => rfl) (sortKeys keys)

theorem keyOf_extraBlock (c : Cat) (keys : List (List String)) :
    (extraBlock c keys).map keyOf = sortKeys keys := by
  rw [extraBlock, List.map_map]
  exact List.map_id'' (fun _ => rfl) (sortKeys keys)

theorem keyOf_consMissingBlockU (src tgt : Catalog) :
    (consMissingBlockU src tgt).map keyOf =
      sortKeysByKind ((missingConsU src tgt).map consKeyL) := by
  rw [consMissingBlockU, List.map_map]
  exact List.map_id'' (fun _ => rfl) _

/-- Within every category of the filtered run's findings, the
missing-in-target identities appear sorted, and so do the
extra-in-target identities. -/
theorem findingsFiltered_sortedWithin (src tgt : Catalog) (c : Cat) :
    List.Pairwise keyLE (((findingsFiltered src tgt).filter
      fun f => isMissingTag f && decide (catOf f = c)).map keyOf) ∧
    List.Pairwise keyLE (((findingsFiltered src tgt).filter
      fun f => isExtraTag f && decide (catOf f = c)).map keyOf) := by
  cases c <;> constructor <;>
    (simp only [findingsFiltered, tableFindingsF, lateFindingsF, List.filter_append,
       List.map_append]
     split <;> try split) <;>
    (simp only [List.filter_append, List.map_append, List.filter_nil, List.map_nil,
       filter_missing_missingBlock, filter_missing_extraBlock, filter_missing_rowFindingsF,
       filter_extra_extraBlock, filter_extra_missingBlock, filter_extra_rowFindingsF,
       keyOf_missingBlock, keyOf_extraBlock, List.append_nil, List.nil_append]) <;>
    (first
      | exact pairwise_sortKeys _
      | exact List.Pairwise.nil
      | simp [keyOf_missingBlock, keyOf_extraBlock, pairwise_sortKeys])

/-- Within every category of the unfiltered run's findings, the
extra-in-target identities appear sorted by their key. -/
theorem findingsUnfiltered_extra_sorted (src tgt : Catalog) (c : Cat) :
    List.Pairwise keyLE (((findingsUnfiltered src tgt).filter
      fun f => isExtraTag f && decide (catOf f = c)).map keyOf) := by
  cases c <;>
    simp only [findingsUnfiltered, List.filter_append, List.map_append,
      filter_extra_extraBlock, filter_extra_missingBlock, filter_extra_consMissingBlockU] <;>
    (first
      | exact pairwise_sortKeys _
      | exact List.Pairwise.nil
      | simp [keyOf_missingBlock, keyOf_extraBlock, pairwise_sortKeys])

/-- Within every category other than constraints, the unfiltered run's
missing-in-target identities appear sorted by their key. -/
theorem findingsUnfiltered_missing_sorted (src tgt : Catalog) (c : Cat)
    (h : c ≠ Cat.cstr) :
    List.Pairwise keyLE (((findingsUnfiltered src tgt).filter
      fun f => isMissingTag f && decide (catOf f = c)).map keyOf) := by
  cases c <;> (try exact absurd rfl h) <;>
    simp only [findingsUnfiltered, List.filter_append, List.map_append,
      filter_missing_missingBlock, filter_missing_extraBlock,
      filter_missing_consMissingBlockU] <;>
    (first
      | exact pairwise_sortKeys _
      | exact List.Pairwise.nil
      | simp [keyOf_missingBlock, keyOf_extraBlock, pairwise_sortKeys])

/-- The unfiltered run's missing-constraint findings appear grouped by
constraint kind: kinds sorted, and (schema, table, name) sorted within a
kind. -/
theorem findingsUnfiltered_missingCons_sorted (src tgt : Catalog) :
    List.Pairwise groupLE (((findingsUnfiltered src tgt).filter
      fun f => isMissingTag f && decide (catOf f = Cat.cstr)).map keyOf) := by
  simp only [findingsUnfiltered, List.filter_append, List.map_append,
    filter_missing_missingBlock, filter_missing_extraBlock,
    filter_missing_consMissingBlockU]
  simp [keyOf_consMissingBlockU, pairwise_sortKeysByKind]

theorem filter_rcount_missingBlock (c : Cat) (keys : List (List String)) :
    (missingBlock c keys).filter (fun f => decide (catOf f = Cat.rcount)) =
      if c = Cat.rcount then missingBlock c keys else [] := by
  by_cases h : c = Cat.rcount
  · subst h
    rw [if_pos rfl]
    apply List.filter_eq_self.mpr
    intro f hf
    obtain ⟨k, -, rfl⟩ := List.mem_map.mp hf
    simp [catOf]
  · rw [if_neg h]
    apply List.filter_eq_nil_iff.mpr
    intro f hf
    obtain ⟨k, -, rfl⟩ := List.mem_map.mp hf
    simp [catOf, h]

theorem filter_rcount_extraBlock (c : Cat) (keys : List (List String)) :
    (extraBlock c keys).filter (fun f => decide (catOf f = Cat.rcount)) =
      if c = Cat.rcount then extraBlock c keys else [] := by
  by_cases h : c = Cat.rcount
  · subst h
    rw [if_pos rfl]
    apply List.filter_eq_self.mpr
    intro f hf
    obtain ⟨k, -, rfl⟩ := List.mem_map.mp hf
    simp [catOf]
  · rw [if_neg h]
    apply List.filter_eq_nil_iff.mpr
    intro f hf
    obtain ⟨k, -, rfl⟩ := List.mem_map.mp hf
    simp [catOf, h]

theorem filter_rcount_rowFindingsF (src tgt : Catalog) :
    (rowFindingsF src tgt).filter (fun f => decide (catOf f = Cat.rcount)) =
      rowFindingsF src tgt := by
  apply List.filter_eq_self.mpr
  intro f hf
  obtain ⟨d, -, rfl⟩ := List.mem_map.mp hf
  simp [catOf]

theorem keyOf_rowFindingsF (src tgt : Catalog) :
    (rowFindingsF src tgt).map keyOf =
      ((rowMismatchesF src tgt).map fun d => d.1).map identKey := by
  rw [rowFindingsF, List.map_map, List.map_map]
  rfl

theorem rowMismatchesF_fst_sublist (src tgt : Catalog) :
    List.Sublist ((rowMismatchesF src tgt).map fun d => d.1) (filteredTables src) := by
  rw [rowMismatchesF]
  split
  · exact rowCountDiffs_fst_sublist _ _ _
  · simp

/-- The row-count findings of the filtered run, in emission order, carry
the source snapshot's table keys in source iteration order (a sublist of
the source's filtered table list). -/
theorem findingsFiltered_rcount_sublist (src tgt : Catalog) :
    List.Sublist (((findingsFiltered src tgt).filter
        fun f => decide (catOf f = Cat.rcount)).map keyOf)
      ((filteredTables src).map identKey) := by
  have htbl : (tableFindingsF src tgt).filter
      (fun f => decide (catOf f = Cat.rcount)) = [] := by
    simp [tableFindingsF, List.filter_append, filter_rcount_missingBlock,
      filter_rcount_extraBlock]
  have hlate : (lateFindingsF src tgt).filter
      (fun f => decide (catOf f = Cat.rcount)) = [] := by
    simp [lateFindingsF, List.filter_append, filter_rcount_missingBlock,
      filter_rcount_extraBlock]
  rw [findingsFiltered, List.filter_append, htbl, List.nil_append]
  split
  · split
    · simp
    · rw [List.filter_append, filter_rcount_rowFindingsF, hlate, List.append_nil,
        keyOf_rowFindingsF]
      exact List.Sublist.map identKey (rowMismatchesF_fst_sublist src tgt)
  · rw [hlate]
    simp

theorem tablesMatchF_iff {src tgt : Catalog} :
    tablesMatchF src tgt = true ↔
      missingTablesF src tgt = [] ∧ extraTablesF src tgt = [] := by
  simp [tablesMatchF, List.isEmpty_iff]

/-! ### Self-comparison lemmas -/

theorem compareUnfiltered_self (A : Catalog) : compareUnfiltered A A = true := by
  simp [compareUnfiltered, anyDiffU, setDiff_self, missingTablesU, extraTablesU,
    missingViews, extraViews, missingProcsU, extraProcsU, missingFuncsU, extraFuncsU,
    missingIndexesU, extraIndexesU, missingConsU, extraConsU]

theorem rowMismatchesF_self (A : Catalog) : rowMismatchesF A A = [] := by
  rw [rowMismatchesF]
  split
  · exact rowCountDiffs_eq_nil_iff.mpr fun k _ => rfl
  · rfl

theorem anyDiffF_self (A : Catalog) : anyDiffF A A = false := by
  simp [anyDiffF, missingTablesF, extraTablesF, missingViews, extraViews,
    missingProcsF, extraProcsF, missingFuncsF, extraFuncsF, setDiff_self,
    rowMismatchesF_self]

theorem compareFiltered_self_of_total (A : Catalog)
    (h : ∀ t ∈ filteredTables A, A.rowCount t ≠ none) :
    compareFiltered A A = some true := by
  have hany : (sourceCountsF A).any (fun p => p.2.isNone) = false := by
    rw [List.any_eq_false]
    rintro ⟨k, v⟩ hp
    rcases List.mem_map.mp hp with ⟨t, ht, he2⟩
    injection he2 with h1 h2
    subst h1
    subst h2
    simpa [Option.isNone_iff_eq_none] using h t ht
  have hcrash : sumCrashF A A = false := by
    rw [sumCrashF, hany]
    simp
  simp [compareFiltered, hcrash, anyDiffF_self]

/-! ### The claims -/

/-- Claim C1: row-count reconciliation is attempted if and only if the
Table category shows no differences — when `missingInTarget(Table)` or
`extraInTarget(Table)` is non-empty the run records no row-count
mismatches (empty by construction), and when both are empty the
per-table count comparison over the source's tables is performed. -/
theorem c1_rowcount_gate (src tgt : Catalog) :
    (missingTablesF src tgt ≠ [] ∨ extraTablesF src tgt ≠ [] →
      rowMismatchesF src tgt = []) ∧
    (missingTablesF src tgt = [] → extraTablesF src tgt = [] →
      rowMismatchesF src tgt =
        rowCountDiffs (filteredTables src) (sourceCountsF src) (targetCountsF tgt)) := by
  constructor
  · intro h
    rw [rowMismatchesF, if_neg]
    intro hm
    rcases tablesMatchF_iff.mp hm with ⟨h1, h2⟩
    rcases h with h | h
    · exact h h1
    · exact h h2
  · intro h1 h2
    rw [rowMismatchesF, if_pos (tablesMatchF_iff.mpr ⟨h1, h2⟩)]

/-- Claim C2, counterexample: the unfiltered comparator performs no
row-count reconciliation at all — on a pair with identical table sets
whose only table counts 100 rows in the source and 99 in the target, the
unfiltered comparison passes and emits no finding. -/
theorem c2_counterexample :
    compareUnfiltered cex2src cex2tgt = true ∧
    findingsUnfiltered cex2src cex2tgt = [] ∧
    cex2src.rowCount ("dbo", "Users") = some 100 ∧
    cex2tgt.rowCount ("dbo", "Users") = some 99 ∧
    missingTablesU cex2src cex2tgt = [] ∧
    extraTablesU cex2src cex2tgt = [] := by
  decide

/-- Claim C2, amended: when the table sets match, the filtered mode's
diff reconciles row counts — it is empty exactly when every source table's
count equals the target's; the unfiltered mode performs no row-count
reconciliation: its verdict ignores the row-count oracles and it never
emits a row-count finding. -/
theorem c2_rowcount_modes (src tgt : Catalog) :
    (missingTablesF src tgt = [] → extraTablesF src tgt = [] →
      (rowMismatchesF src tgt = [] ↔
        ∀ k ∈ filteredTables src,
          lookupCount (sourceCountsF src) k = lookupCount (targetCountsF tgt) k)) ∧
    (∀ f g : Ident → Option Int,
      compareUnfiltered { src with rowCount := f } { tgt with rowCount := g } =
        compareUnfiltered src tgt) ∧
    (∀ fd ∈ findingsUnfiltered src tgt, catOf fd ≠ Cat.rcount) := by
  refine ⟨?_, ?_, ?_⟩
  · intro h1 h2
    rw [rowMismatchesF, if_pos (tablesMatchF_iff.mpr ⟨h1, h2⟩)]
    exact rowCountDiffs_eq_nil_iff
  · intro f g
    rfl
  · intro fd hfd
    exact catOf_of_mem_findingsUnfiltered hfd

/-- Claim C3: the verdict logic is Fail exactly on differences and Pass
otherwise — but on a pair of equal snapshots whose shared table has a
failed (`None`) count on both sides, the filtered script raises an
uncaught `TypeError` in `sum(source_counts.values())` and produces no
verdict at all (exit code 1, same as Fail), where the claim promises
Pass. -/
theorem c3_verdict_crash :
    compareFiltered bug3cat bug3cat = none ∧
    anyDiffF bug3cat bug3cat = false ∧
    rowMismatchesF bug3cat bug3cat = [] ∧
    exitCode (compareFiltered bug3cat bug3cat) = 1 ∧
    compareUnfiltered bug3cat bug3cat = true := by
  decide

/-- Claim C4: under the enabled exclusion policy an object is excluded
exactly when its object name (schema ignored, case-sensitive) is in the
fixed per-category allow-list; excluded identities are removed before
diffing and so never appear in `missingInTarget`/`extraInTarget`; and on
Scenario D (source has `sp_creatediagram`, target does not) the filtered
mode passes while the unfiltered mode fails reporting that procedure
missing. -/
theorem c4_exclusion_policy :
    (∀ (c : Catalog) (t : Ident),
      t ∈ filteredTables c ↔ t ∈ c.tables ∧ t.2 ∉ EXCLUDED_TABLES) ∧
    (∀ (c : Catalog) (p : Ident),
      p ∈ filteredProcedures c ↔ p ∈ c.procedures ∧ p.2 ∉ EXCLUDED_PROCEDURES) ∧
    (∀ (c : Catalog) (f : Ident),
      f ∈ filteredFunctions c ↔ f ∈ c.functions ∧ f.2 ∉ EXCLUDED_FUNCTIONS) ∧
    (∀ (src tgt : Catalog) (i : Ident), i.2 ∈ EXCLUDED_TABLES →
      i ∉ missingTablesF src tgt ∧ i ∉ extraTablesF src tgt) ∧
    (∀ (src tgt : Catalog) (i : Ident), i.2 ∈ EXCLUDED_PROCEDURES →
      i ∉ missingProcsF src tgt ∧ i ∉ extraProcsF src tgt) ∧
    (∀ (src tgt : Catalog) (i : Ident), i.2 ∈ EXCLUDED_FUNCTIONS →
      i ∉ missingFuncsF src tgt ∧ i ∉ extraFuncsF src tgt) ∧
    compareFiltered pol4src pol4tgt = some true ∧
    compareUnfiltered pol4src pol4tgt = false ∧
    ("dbo", "sp_creatediagram") ∈ missingProcsU pol4src pol4tgt := by
  refine ⟨?_, ?_, ?_, ?_, ?_, ?_, by decide, by decide, by decide⟩
  · intro c t
    simp [filteredTables, List.mem_filter]
  · intro c p
    simp [filteredProcedures, List.mem_filter]
  · intro c f
    simp [filteredFunctions, List.mem_filter]
  · intro src tgt i hi
    constructor
    · intro hmem
      rcases mem_setDiff.mp hmem with ⟨hin, -⟩
      rcases (List.mem_filter.mp hin) with ⟨-, hdec⟩
      exact (of_decide_eq_true hdec) hi
    · intro hmem
      rcases mem_setDiff.mp hmem with ⟨hin, -⟩
      rcases (List.mem_filter.mp hin) with ⟨-, hdec⟩
      exact (of_decide_eq_true hdec) hi
  · intro src tgt i hi
    constructor
    · intro hmem
      rcases mem_setDiff.mp hmem with ⟨hin, -⟩
      rcases (List.mem_filter.mp hin) with ⟨-, hdec⟩
      exact (of_decide_eq_true hdec) hi
    · intro hmem
      rcases mem_setDiff.mp hmem with ⟨hin, -⟩
      rcases (List.mem_filter.mp hin) with ⟨-, hdec⟩
      exact (of_decide_eq_true hdec) hi
  · intro src tgt i hi
    constructor
    · intro hmem
      rcases mem_setDiff.mp hmem with ⟨hin, -⟩
      rcases (List.mem_filter.mp hin) with ⟨-, hdec⟩
      exact (of_decide_eq_true hdec) hi
    · intro hmem
      rcases mem_setDiff.mp hmem with ⟨hin, -⟩
      rcases (List.mem_filter.mp hin) with ⟨-, hdec⟩
      exact (of_decide_eq_true hdec) hi

/-- Claim C5: when row-count reconciliation runs (table sets match), the
mismatches are exactly the source tables whose looked-up source count
differs from the target count — both counts may be `null` and a
`null`-versus-numeric pair is recorded with both counts — and the
recorded list follows the source snapshot's iteration order. -/
theorem c5_rowcount_recording (src tgt : Catalog)
    (h1 : missingTablesF src tgt = []) (h2 : extraTablesF src tgt = []) :
    (∀ (k : Ident) (s t : Option Int),
      (k, s, t) ∈ rowMismatchesF src tgt ↔
        k ∈ filteredTables src ∧ s = lookupCount (sourceCountsF src) k ∧
          t = lookupCount (targetCountsF tgt) k ∧ s ≠ t) ∧
    List.Sublist ((rowMismatchesF src tgt).map fun d => d.1) (filteredTables src) := by
  rw [rowMismatchesF, if_pos (tablesMatchF_iff.mpr ⟨h1, h2⟩)]
  exact ⟨fun k s t => mem_rowCountDiffs, rowCountDiffs_fst_sublist _ _ _⟩

/-- Claim C5, witness (Scenario E): with the shared table `dbo.Users`
failing its count on the source (`null`) and counting 0 on the target,
the mismatch is recorded with `sourceCount = null` and
`targetCount = 0`. -/
theorem c5_rowcount_recording_w :
    (("dbo", "Users"), (none : Option Int), some (0 : Int)) ∈
      rowMismatchesF scnEsrc scnEtgt :=
  ((c5_rowcount_recording scnEsrc scnEtgt (by decide) (by decide)).1
    ("dbo", "Users") none (some 0)).mpr (by decide)

/-- Claim C6, counterexample: a connection failure is reported through
the very same result as a structural Fail — both runs return `False`
(exit code 1), so the outcome is not distinct. -/
theorem c6_counterexample :
    runComparisonFiltered none (some failB) = some false ∧
    runComparisonFiltered (some failA) (some failB) = some false ∧
    anyDiffF failA failB = true ∧
    exitCode (runComparisonFiltered none (some failB)) =
      exitCode (runComparisonFiltered (some failA) (some failB)) ∧
    runComparisonUnfiltered none (some failB) = some false ∧
    runComparisonUnfiltered (some failA) (some failB) = some false := by
  decide

/-- Claim C6, amended: a fatal connection failure on either side
terminates the comparison before any catalog read with the non-pass
outcome `False` (exit code 1) and no findings; this outcome value
coincides with a structural Fail's — the distinction is only in the
printed messages. -/
theorem c6_fatal_outcome (s t : Option Catalog) (h : s = none ∨ t = none) :
    runComparisonFiltered s t = some false ∧
    runComparisonUnfiltered s t = some false ∧
    runFindingsFiltered s t = [] ∧
    exitCode (runComparisonFiltered s t) = 1 := by
  rcases h with rfl | rfl
  · exact ⟨rfl, rfl, rfl, rfl⟩
  · cases s with
    | none => exact ⟨rfl, rfl, rfl, rfl⟩
    | some c => exact ⟨rfl, rfl, rfl, rfl⟩

/-- Claim C6, amended witness: the source-connection-failure run returns
`False` with no findings and exit code 1. -/
theorem c6_fatal_outcome_w :
    runComparisonFiltered none (some failB) = some false ∧
    runComparisonUnfiltered none (some failB) = some false ∧
    runFindingsFiltered none (some failB) = [] ∧
    exitCode (runComparisonFiltered none (some failB)) = 1 :=
  c6_fatal_outcome none (some failB) (Or.inl rfl)

/-- Claim C7, counterexample: the emitted findings do not follow the
declared category order with sorted identities.  Filtered mode emits the
row-count mismatch before the view findings (the claim puts row counts
last), and within the views category a missing `dbo.zz` precedes an
extra `dbo.aa`; unfiltered mode groups missing constraints by kind, so
`dbo.T.ZZZ` (CHECK) precedes `dbo.T.AAA` (PRIMARY KEY). -/
theorem c7_counterexample :
    specOrderedB (findingsFiltered ord7src ord7tgt) = false ∧
    specOrderedB (findingsUnfiltered ord7usrc ord7utgt) = false ∧
    findingsFiltered ord7src ord7tgt =
      [Finding.rowMismatch ["dbo", "T"] (some 1) (some 2),
       Finding.missingObj Cat.vw ["dbo", "zz"],
       Finding.extraObj Cat.vw ["dbo", "aa"]] ∧
    findingsUnfiltered ord7usrc ord7utgt =
      [Finding.missingObj Cat.cstr ["dbo", "T", "ZZZ", "CHECK"],
       Finding.missingObj Cat.cstr ["dbo", "T", "AAA", "PRIMARY KEY"]] := by
  decide

/-- Claim C7, amended: each mode emits categories in its own fixed order
— unfiltered: tables, views, procedures, functions, indexes, constraints
(never a row-count finding); filtered: tables, row counts, views,
procedures, functions.  Within a category the missing identities and the
extra identities are each sorted by their key, except that missing
constraints are ordered by kind first (kinds sorted, identities sorted
within a kind); row-count findings appear in source iteration order. -/
theorem c7_order_amended (src tgt : Catalog) (c : Cat) :
    RankMono filteredCatRank (findingsFiltered src tgt) ∧
    RankMono specCatRank (findingsUnfiltered src tgt) ∧
    (∀ f ∈ findingsUnfiltered src tgt, catOf f ≠ Cat.rcount) ∧
    (List.Pairwise keyLE (((findingsFiltered src tgt).filter
       fun f => isMissingTag f && decide (catOf f = c)).map keyOf) ∧
     List.Pairwise keyLE (((findingsFiltered src tgt).filter
       fun f => isExtraTag f && decide (catOf f = c)).map keyOf)) ∧
    List.Pairwise keyLE (((findingsUnfiltered src tgt).filter
       fun f => isExtraTag f && decide (catOf f = c)).map keyOf) ∧
    (c ≠ Cat.cstr → List.Pairwise keyLE (((findingsUnfiltered src tgt).filter
       fun f => isMissingTag f && decide (catOf f = c)).map keyOf)) ∧
    List.Pairwise groupLE (((findingsUnfiltered src tgt).filter
       fun f => isMissingTag f && decide (catOf f = Cat.cstr)).map keyOf) ∧
    List.Sublist (((findingsFiltered src tgt).filter
       fun f => decide (catOf f = Cat.rcount)).map keyOf)
      ((filteredTables src).map identKey) :=
  ⟨findingsFiltered_rankMono src tgt,
   findingsUnfiltered_rankMono src tgt,
   fun _ hf => catOf_of_mem_findingsUnfiltered hf,
   findingsFiltered_sortedWithin src tgt c,
   findingsUnfiltered_extra_sorted src tgt c,
   fun hc => findingsUnfiltered_missing_sorted src tgt c hc,
   findingsUnfiltered_missingCons_sorted src tgt,
   findingsFiltered_rcount_sublist src tgt⟩

/-- Claim C8: a failed count query for one table degrades exactly that
entry to `null` while the read continues — every discovered table keeps
an entry, each entry holds that table's own query result, and changing
the outcome of one table's query leaves every other entry unchanged. -/
theorem c8_rowcount_partial_failure (oracle oracle2 : Ident → Option Int)
    (ts : List Ident) (t : Ident) (ht : t ∈ ts) (hfail : oracle t = none) :
    lookupCount (getTableRowCounts oracle ts) t = none ∧
    (getTableRowCounts oracle ts).map (fun p => p.1) = ts ∧
    (∀ u ∈ ts, lookupCount (getTableRowCounts oracle ts) u = oracle u) ∧
    ((∀ u : Ident, u ≠ t → oracle2 u = oracle u) →
      ∀ u ∈ ts, u ≠ t →
        lookupCount (getTableRowCounts oracle2 ts) u =
          lookupCount (getTableRowCounts oracle ts) u) := by
  refine ⟨?_, ?_, ?_, ?_⟩
  · rw [lookupCount_getTableRowCounts oracle ts t ht, hfail]
  · simp only [getTableRowCounts, List.map_map]
    exact List.map_id'' (fun _ => rfl) ts
  · exact fun u hu => lookupCount_getTableRowCounts oracle ts u hu
  · intro hagree u hu hne
    rw [lookupCount_getTableRowCounts oracle2 ts u hu,
      lookupCount_getTableRowCounts oracle ts u hu]
    exact hagree u hne

/-- Claim C8, witness: over tables `dbo.A`, `dbo.B` with `dbo.B`'s count
query failing, only the `dbo.B` entry is `null`. -/
theorem c8_rowcount_partial_failure_w :
    lookupCount (getTableRowCounts w8oracle w8tables) ("dbo", "B") = none :=
  (c8_rowcount_partial_failure w8oracle w8oracle2 w8tables ("dbo", "B")
    (by decide) (by decide)).1

/-- Claim C9: comparing a snapshot against itself always yields empty
diffs — but when some table's count query failed (`null` count), the
filtered script crashes in `sum(source_counts.values())` instead of
returning Pass: here `diff(A, A)` is empty and the unfiltered mode
passes, yet the filtered comparison yields no verdict. -/
theorem c9_selfcompare_crash :
    compareFiltered bug9cat bug9cat = none ∧
    anyDiffF bug9cat bug9cat = false ∧
    rowMismatchesF bug9cat bug9cat = [] ∧
    missingTablesF bug9cat bug9cat = [] ∧
    extraTablesF bug9cat bug9cat = [] ∧
    compareUnfiltered bug9cat bug9cat = true := by
  decide

/-- Claim C10: with equal filtered table sets and pairwise-equal counts
that include a table counted `null` on both sides, the filtered
comparison does not complete: it raises (`none`) and never reaches its
Pass/Fail verdict, although a missing procedure warranted Fail. -/
theorem c10_nullcount_crash :
    compareFiltered bug10src bug10tgt = none ∧
    filteredTables bug10src = filteredTables bug10tgt ∧
    rowMismatchesF bug10src bug10tgt = [] ∧
    missingProcsF bug10src bug10tgt ≠ [] ∧
    exitCode (compareFiltered bug10src bug10tgt) = 1 := by
  decide

end DbCompare
